import Mathlib

/-!
# Verification of the AI-Logger SDK buffering core

Shallow embedding of `src/sdk/python/regulateai/client.py` (the buffered
`ComplianceLogger` with its `LogBuffer`) and of
`src/sdk/python/ai_logger/client.py` (the immediate-send `AILogger`),
together with theorems settling the spec claims about them.

Modelling conventions:
* Python `time.time()` is modelled by an explicit `now : Int` argument
  threaded into each operation that reads the clock.
* The HTTP transport is modelled by a `sendOk : Bool` oracle (or an
  explicit `Except` response for `AILogger`): `sendOk = false` stands for
  `_request` raising `RegulateAIError` (both `ApiError` and `NetworkError`
  are raised as this one class in the source).  The list of batches handed
  to the transport is returned explicitly so that theorems can count
  network requests.
* A Python log-entry dict is an association list of string keys and
  JSON-like values; Python floats are only carried, never computed on, so
  they are modelled by an opaque rational payload.
* Exceptions become explicit outcome fields (`Except` results, a `raised`
  flag for the flush path, which in the source catches every
  `RegulateAIError`).
-/

namespace AILoggerSpec

/-- JSON-serializable values as they appear in log-entry payloads
(`Dict[str, Any]` in the source).  Floats are carried opaquely. -/
inductive JValue : Type where
  | str (s : String)
  | int (n : Int)
  | flt (q : Rat)
  | bool (b : Bool)
  | obj (fields : List (String × JValue))

/-- A log entry: the payload dict built by `log()`.  Keys appear in the
order the source inserts them. -/
abbrev LogEntry := List (String × JValue)

/-- Errors raised by the SDK: `ValueError` for invalid arguments and
`RegulateAIError` / `AILoggerError` (message plus optional HTTP status)
for transport or API failures. -/
inductive SdkError : Type where
  | valueError (msg : String)
  | apiError (msg : String) (status : Option Int)

/-- `LogBuffer` from `regulateai/client.py`: an ordered sequence of pending
entries plus the configured capacity threshold.  The `threading.Lock` only
serialises accesses; sequential semantics need no lock. -/
structure LogBuffer (α : Type) where
  buffer : List α
  buffer_size : Nat

/-- `LogBuffer.add`: append the entry, return the new state and the
fullness signal `len(self._buffer) >= self._buffer_size` computed on the
post-append contents. -/
def LogBuffer.add {α : Type} (b : LogBuffer α) (e : α) : LogBuffer α × Bool :=
  let buf := b.buffer ++ [e]
  ({ b with buffer := buf }, decide (buf.length ≥ b.buffer_size))

/-- `LogBuffer.flush`: atomically take all buffered entries (a copy of the
list) and clear the internal sequence. -/
def LogBuffer.flush {α : Type} (b : LogBuffer α) : List α × LogBuffer α :=
  (b.buffer, { b with buffer := [] })

/-- `LogBuffer.size`: current number of buffered entries. -/
def LogBuffer.size {α : Type} (b : LogBuffer α) : Nat :=
  b.buffer.length

/-- `LogBuffer.is_empty`: `self.size() == 0`. -/
def LogBuffer.isEmpty {α : Type} (b : LogBuffer α) : Bool :=
  b.size == 0

/-- `ComplianceLogger` state: transport configuration, the buffer, the
flush state (`_flush_interval`, `_last_flush`, `_running`) and whether the
background flush thread was started at construction. -/
structure ComplianceLogger (α : Type) where
  api_key : String
  project_id : String
  base_url : String
  timeout : Int
  silent : Bool
  buffer : LogBuffer α
  flush_interval : Int
  last_flush : Int
  flush_thread_started : Bool
  running : Bool

/-- `ComplianceLogger.__init__`: validates `api_key` and `project_id` as
non-empty strings, strips trailing slashes from the base URL, creates an
empty buffer of the given capacity, stamps `_last_flush = time.time()`,
and starts the background flush thread iff `flush_interval > 0`. -/
def ComplianceLogger.init (α : Type) (api_key project_id base_url : String)
    (timeout : Int) (silent : Bool) (buffer_size : Nat) (flush_interval : Int)
    (now : Int) : Except SdkError (ComplianceLogger α) :=
  if api_key = "" then
    .error (.valueError "[RegulateAI] api_key is required and must be a non-empty string.")
  else if project_id = "" then
    .error (.valueError "[RegulateAI] project_id is required and must be a non-empty string.")
  else
    .ok
      { api_key := api_key
        project_id := project_id
        base_url := base_url.dropRightWhile (· = '/')
        timeout := timeout
        silent := silent
        buffer := { buffer := [], buffer_size := buffer_size }
        flush_interval := flush_interval
        last_flush := now
        flush_thread_started := decide (flush_interval > 0)
        running := true }

/-- `ComplianceLogger._should_flush`: buffer size reached capacity, or the
elapsed time since the last flush reached the flush interval. -/
def ComplianceLogger.shouldFlush {α : Type} (L : ComplianceLogger α) (now : Int) : Bool :=
  decide (L.buffer.size ≥ L.buffer.buffer_size) || decide (now - L.last_flush ≥ L.flush_interval)

/-- Observable outcome of one `_flush` call: the resulting logger state,
the batches handed to `Transport.send` (at most one), whether a warning
was emitted, and whether an exception escaped to the caller. -/
structure FlushOutcome (α : Type) where
  logger : ComplianceLogger α
  requests : List (List α)
  warned : Bool
  raised : Bool

/-- `ComplianceLogger._flush`: drain the buffer; if the drained list is
empty, return at once (note: without touching `_last_flush`).  Otherwise
POST the batch to `/ingest/logs`; a `RegulateAIError` from the transport
is caught, emitting a warning unless silent mode is set; finally stamp
`_last_flush = time.time()`. -/
def ComplianceLogger.flushOp {α : Type} (L : ComplianceLogger α) (now : Int)
    (sendOk : Bool) : FlushOutcome α :=
  let drained := L.buffer.flush
  let L1 : ComplianceLogger α := { L with buffer := drained.2 }
  if drained.1.isEmpty then
    { logger := L1, requests := [], warned := false, raised := false }
  else
    { logger := { L1 with last_flush := now }
      requests := [drained.1]
      warned := !sendOk && !L.silent
      raised := false }

/-- `ComplianceLogger.close`: clear the `_running` flag observed by the
background thread, then run one final synchronous flush. -/
def ComplianceLogger.close {α : Type} (L : ComplianceLogger α) (now : Int)
    (sendOk : Bool) : FlushOutcome α :=
  ComplianceLogger.flushOp { L with running := false } now sendOk

/-- The keyword arguments of `ComplianceLogger.log`. -/
structure LogArgs : Type where
  prompt : String
  output : String
  model : String
  model_version : Option String
  confidence : Option Rat
  latency_ms : Option Int
  tokens_input : Option Int
  tokens_output : Option Int
  user_identifier : Option String
  session_id : Option String
  framework : Option String
  metadata : Option (List (String × JValue))

/-- Helper for the `if x is not None: payload[key] = x` pattern: the
key/value pair is present iff the optional argument was given. -/
def optField (key : String) (v : Option JValue) : List (String × JValue) :=
  match v with
  | none => []
  | some j => [(key, j)]

/-- The payload dict built by `ComplianceLogger.log`, keys in source
insertion order. -/
def LogArgs.payload (a : LogArgs) : LogEntry :=
  [("prompt", .str a.prompt), ("output", .str a.output), ("model", .str a.model)]
    ++ optField "modelVersion" (a.model_version.map .str)
    ++ optField "confidence" (a.confidence.map .flt)
    ++ optField "latencyMs" (a.latency_ms.map .int)
    ++ optField "tokensInput" (a.tokens_input.map .int)
    ++ optField "tokensOutput" (a.tokens_output.map .int)
    ++ optField "userIdentifier" (a.user_identifier.map .str)
    ++ optField "sessionId" (a.session_id.map .str)
    ++ optField "framework" (a.framework.map .str)
    ++ optField "metadata" (a.metadata.map .obj)

/-- The locally-synthesized acknowledgment returned by a buffered `log()`
call: a provisional id derived from the clock, a creation timestamp, and
`buffered: True`.  ISO-8601 rendering of the timestamp is not modelled. -/
structure Ack : Type where
  id : String
  created_at : Int
  buffered : Bool

/-- The dict `log()` returns on success. -/
def mkAck (now : Int) : Ack :=
  { id := "local-" ++ toString (now * 1000), created_at := now, buffered := true }

/-- Observable outcome of one `ComplianceLogger.log` call. -/
structure LogOutcome (α : Type) : Type where
  result : Except SdkError Ack
  logger : ComplianceLogger α
  requests : List (List α)
  warned : Bool

/-- `ComplianceLogger.log`: validate that `prompt`, `output` and `model`
are non-empty strings (raising `ValueError` otherwise, before any buffer
or network activity), build the payload, add it to the buffer, flush
synchronously when `_should_flush()` holds, and return the provisional
acknowledgment. -/
def ComplianceLogger.log (L : ComplianceLogger LogEntry) (a : LogArgs)
    (now : Int) (sendOk : Bool) : LogOutcome LogEntry :=
  if a.prompt = "" then
    { result := .error (.valueError "[RegulateAI] log() requires a non-empty string prompt.")
      logger := L, requests := [], warned := false }
  else if a.output = "" then
    { result := .error (.valueError "[RegulateAI] log() requires a non-empty string output.")
      logger := L, requests := [], warned := false }
  else if a.model = "" then
    { result := .error (.valueError "[RegulateAI] log() requires a non-empty string model.")
      logger := L, requests := [], warned := false }
  else
    let added := L.buffer.add a.payload
    let L1 : ComplianceLogger LogEntry := { L with buffer := added.1 }
    if L1.shouldFlush now then
      let r := L1.flushOp now sendOk
      { result := .ok (mkAck now), logger := r.logger, requests := r.requests, warned := r.warned }
    else
      { result := .ok (mkAck now), logger := L1, requests := [], warned := false }

/-- `AILogger` state (the immediate-send variant has no buffer). -/
structure AILogger : Type where
  api_key : String
  base_url : String
  timeout : Int
  silent : Bool

/-- The keyword arguments of `AILogger.log`. -/
structure AILogArgs : Type where
  prompt : String
  output : String
  model : String
  user_id : Option String
  latency_ms : Option Int
  metadata : Option (List (String × JValue))

/-- The payload dict built by `AILogger.log`, keys in source order. -/
def AILogArgs.payload (a : AILogArgs) : LogEntry :=
  [("prompt", .str a.prompt), ("output", .str a.output), ("model", .str a.model)]
    ++ optField "userId" (a.user_id.map .str)
    ++ optField "latencyMs" (a.latency_ms.map .int)
    ++ optField "metadata" (a.metadata.map .obj)

/-- Observable outcome of one `AILogger.log` call: the returned (or
raised) value and the payloads POSTed to `/log`. -/
structure AILogOutcome : Type where
  result : Except SdkError LogEntry
  requests : List LogEntry

/-- `AILogger.log`: validate the three required fields as non-empty
strings (raising `ValueError` before any network call), then POST the
payload to `/log` once, re-raising any `AILoggerError` from the transport.
`response` is the transport outcome for that single request. -/
def AILogger.log (L : AILogger) (a : AILogArgs)
    (response : Except SdkError LogEntry) : AILogOutcome :=
  if a.prompt = "" then
    { result := .error (.valueError "[AILogger] log() requires a non-empty string prompt.")
      requests := [] }
  else if a.output = "" then
    { result := .error (.valueError "[AILogger] log() requires a non-empty string output.")
      requests := [] }
  else if a.model = "" then
    { result := .error (.valueError "[AILogger] log() requires a non-empty string model.")
      requests := [] }
  else
    { result := response, requests := [a.payload] }

/-- One step of a sequential buffer history: an enqueue or a drain. -/
inductive BufOp (α : Type) : Type where
  | add (e : α)
  | drain

/-- Run a sequence of buffer operations, collecting the batch returned by
each drain in order. -/
def runBuf {α : Type} (b : LogBuffer α) : List (BufOp α) → LogBuffer α × List (List α)
  | [] => (b, [])
  | .add e :: ops => runBuf (b.add e).1 ops
  | .drain :: ops =>
      let drained := b.flush
      let rest := runBuf drained.2 ops
      (rest.1, drained.1 :: rest.2)

/-- The entries enqueued by a sequence of buffer operations, in order. -/
def addsOf {α : Type} : List (BufOp α) → List α
  | [] => []
  | .add e :: ops => e :: addsOf ops
  | .drain :: ops => addsOf ops

/-- One `log()` call in a sequential history: its arguments, the clock
reading, and the transport outcome should a flush fire. -/
structure LogCall : Type where
  args : LogArgs
  now : Int
  sendOk : Bool

/-- Run a sequence of `log()` calls, returning the logger state observed
at the return of each call. -/
def runLogs (L : ComplianceLogger LogEntry) : List LogCall → List (ComplianceLogger LogEntry)
  | [] => []
  | c :: cs =>
      let out := L.log c.args c.now c.sendOk
      out.logger :: runLogs out.logger cs

/-! ## Sample states used to instantiate theorems on concrete inputs -/

/-- A concrete logger with an empty buffer (capacity 3, silent mode). -/
def emptyNatLogger : ComplianceLogger Nat :=
  { api_key := "key"
    project_id := "proj"
    base_url := "https://example.test"
    timeout := 10
    silent := true
    buffer := { buffer := [], buffer_size := 3 }
    flush_interval := 5
    last_flush := 0
    flush_thread_started := true
    running := true }

/-- A concrete logger whose buffer holds three pending entries. -/
def fullNatLogger : ComplianceLogger Nat :=
  { emptyNatLogger with buffer := { buffer := [1, 2, 3], buffer_size := 3 } }

/-! ## Theorems for the claims -/

/-- C1: each `add()` call returns `true` iff the buffer length immediately
after that append is at least the capacity threshold the buffer was
constructed with (the threshold itself is never mutated by `add`). -/
theorem add_returns_true_iff_full {α : Type} (b : LogBuffer α) (e : α) :
    ((b.add e).2 = true ↔ (b.add e).1.buffer.length ≥ b.buffer_size)
      ∧ (b.add e).1.buffer_size = b.buffer_size := by
  constructor
  · simp [LogBuffer.add]
  · rfl

/-- Running any sequence of buffer operations: the drained batches in
order, followed by what is still buffered, reproduce the initial contents
followed by the enqueued entries in insertion order. -/
theorem runBuf_flatten_append {α : Type} (ops : List (BufOp α)) (b : LogBuffer α) :
    (runBuf b ops).2.flatten ++ (runBuf b ops).1.buffer = b.buffer ++ addsOf ops := by
  induction ops generalizing b with
  | nil => simp [runBuf, addsOf]
  | cons op ops ih =>
    cases op with
    | add e =>
      simp only [runBuf, addsOf]
      rw [ih]
      simp [LogBuffer.add]
    | drain =>
      simp only [runBuf, addsOf, List.flatten_cons, List.append_assoc]
      rw [ih]
      simp [LogBuffer.flush]

/-- C2: for a sequential history of enqueues and drains starting from an
empty buffer, concatenating the drained batches in drain order, followed
by any still-buffered remainder, reproduces exactly the enqueued entries
in insertion order; and each drained batch is the entire pending stream at
the time of its drain (in particular a contiguous prefix of it). -/
theorem drains_reproduce_enqueue_order {α : Type} (C : Nat) (ops : List (BufOp α)) :
    ((runBuf (LogBuffer.mk [] C) ops).2.flatten
        ++ (runBuf (LogBuffer.mk [] C) ops).1.buffer = addsOf ops)
      ∧ ∀ b : LogBuffer α, (b.flush).1 = b.buffer := by
  constructor
  · simpa using runBuf_flatten_append ops (LogBuffer.mk [] C)
  · intro b
    rfl

/-- C3 counterexample: a `_flush` call on a logger whose buffer is empty
returns early and does not set `_last_flush` to the current time (here the
clock reads 5 but `last_flush` stays 0). -/
theorem flush_empty_last_flush_cex :
    ¬ (emptyNatLogger.flushOp 5 true).logger.last_flush = 5 := by
  decide

/-- C3 amended: `_flush` sets `_last_flush` to the current time exactly
when the drained buffer was non-empty (then regardless of transport
success or failure); a call on an empty buffer leaves it unchanged. -/
theorem flushOp_last_flush {α : Type} (L : ComplianceLogger α) (now : Int) (sendOk : Bool) :
    (L.flushOp now sendOk).logger.last_flush =
      if L.buffer.buffer.isEmpty then L.last_flush else now := by
  cases h : L.buffer.buffer.isEmpty <;>
    simp [ComplianceLogger.flushOp, LogBuffer.flush, h]

/-- C5: a drain immediately followed by `size()` yields 0; two consecutive
drains with no intervening add yield the full buffered sequence and then
the empty sequence. -/
theorem drain_size_zero_and_twice {α : Type} (b : LogBuffer α) :
    ((b.flush).2.size = 0 ∧ (b.flush).1 = b.buffer ∧ ((b.flush).2.flush).1 = []) := by
  simp [LogBuffer.flush, LogBuffer.size]

/-- C4: a transport failure (an `ApiError`, modelled by `sendOk = false`)
during a flush of a silent-mode logger with pending entries leaves the
buffer empty (the drained batch is dropped, not restored), advances the
last-flush timestamp to the current time, raises nothing to the caller,
and emits no warning. -/
theorem silent_flush_drops_batch {α : Type} (L : ComplianceLogger α) (now : Int)
    (hs : L.silent = true) (hne : L.buffer.buffer ≠ []) :
    ((L.flushOp now false).logger.buffer.buffer = []
      ∧ (L.flushOp now false).logger.last_flush = now
      ∧ (L.flushOp now false).raised = false
      ∧ (L.flushOp now false).warned = false) := by
  cases hb : L.buffer.buffer with
  | nil => exact absurd hb hne
  | cons x xs =>
    simp [ComplianceLogger.flushOp, LogBuffer.flush, hb, hs]

/-- Witness for C4 at a concrete silent logger with three pending
entries and a failing transport. -/
theorem silent_flush_drops_batch_witness :
    ((fullNatLogger.flushOp 7 false).logger.buffer.buffer = []
      ∧ (fullNatLogger.flushOp 7 false).logger.last_flush = 7
      ∧ (fullNatLogger.flushOp 7 false).raised = false
      ∧ (fullNatLogger.flushOp 7 false).warned = false) :=
  silent_flush_drops_batch fullNatLogger 7 rfl (by decide)

/-- C6: a `_flush` on an empty buffer issues zero transport requests and
leaves the logger state unchanged, with no warning and no exception. -/
theorem flush_empty_is_noop {α : Type} (L : ComplianceLogger α) (now : Int) (sendOk : Bool)
    (h : L.buffer.buffer = []) :
    ((L.flushOp now sendOk).requests = []
      ∧ (L.flushOp now sendOk).logger = L
      ∧ (L.flushOp now sendOk).warned = false
      ∧ (L.flushOp now sendOk).raised = false) := by
  obtain ⟨k, p, u, t, s, ⟨buf, C⟩, fi, lf, ft, r⟩ := L
  simp only at h
  subst h
  simp [ComplianceLogger.flushOp, LogBuffer.flush]

/-- Witness for C6 at a concrete logger with an empty buffer. -/
theorem flush_empty_is_noop_witness :
    ((emptyNatLogger.flushOp 5 true).requests = []
      ∧ (emptyNatLogger.flushOp 5 true).logger = emptyNatLogger
      ∧ (emptyNatLogger.flushOp 5 true).warned = false
      ∧ (emptyNatLogger.flushOp 5 true).raised = false) :=
  flush_empty_is_noop emptyNatLogger 5 true rfl

/-- C9: closing a logger with pending entries clears the running flag read
by the background ticker and performs one final synchronous flush that
drains the buffer and submits all remaining entries in one batch before
returning. -/
theorem close_runs_final_flush {α : Type} (L : ComplianceLogger α) (now : Int) (sendOk : Bool)
    (h : L.buffer.buffer ≠ []) :
    ((L.close now sendOk).logger.running = false
      ∧ (L.close now sendOk).logger.buffer.buffer = []
      ∧ (L.close now sendOk).requests = [L.buffer.buffer]) := by
  cases hb : L.buffer.buffer with
  | nil => exact absurd hb h
  | cons x xs =>
    simp [ComplianceLogger.close, ComplianceLogger.flushOp, LogBuffer.flush, hb]

/-- Witness for C9 at a concrete logger with three pending entries. -/
theorem close_runs_final_flush_witness :
    ((fullNatLogger.close 9 true).logger.running = false
      ∧ (fullNatLogger.close 9 true).logger.buffer.buffer = []
      ∧ (fullNatLogger.close 9 true).requests = [fullNatLogger.buffer.buffer]) :=
  close_runs_final_flush fullNatLogger 9 true (by decide)

/-- A concrete buffered logger over real log entries (capacity 3). -/
def sampleEntryLogger : ComplianceLogger LogEntry :=
  { api_key := "key"
    project_id := "proj"
    base_url := "https://example.test"
    timeout := 10
    silent := false
    buffer := { buffer := [], buffer_size := 3 }
    flush_interval := 5
    last_flush := 0
    flush_thread_started := true
    running := true }

/-- A concrete buffered logger with flush interval 0 (background thread
never started; recall that `_last_flush` starts at construction time). -/
def immediateEntryLogger : ComplianceLogger LogEntry :=
  { sampleEntryLogger with flush_interval := 0, flush_thread_started := false }

/-- A concrete immediate-send logger. -/
def sampleAILogger : AILogger :=
  { api_key := "key", base_url := "https://example.test", timeout := 10, silent := false }

/-- `log()` arguments with an empty prompt (the other fields valid). -/
def emptyPromptArgs : LogArgs :=
  { prompt := "", output := "out", model := "gpt-4"
    model_version := none, confidence := none, latency_ms := none
    tokens_input := none, tokens_output := none, user_identifier := none
    session_id := none, framework := none, metadata := none }

/-- Valid `log()` arguments. -/
def validArgs : LogArgs :=
  { prompt := "hi", output := "out", model := "gpt-4"
    model_version := none, confidence := none, latency_ms := none
    tokens_input := none, tokens_output := none, user_identifier := none
    session_id := none, framework := none, metadata := none }

/-- `AILogger.log()` arguments with an empty prompt. -/
def emptyPromptAIArgs : AILogArgs :=
  { prompt := "", output := "out", model := "gpt-4"
    user_id := none, latency_ms := none, metadata := none }

/-- A `ComplianceLogger.log` call with some empty required field fails the
validation before touching the buffer or the network. -/
theorem complianceLog_invalid (L : ComplianceLogger LogEntry) (a : LogArgs)
    (now : Int) (sendOk : Bool)
    (h : a.prompt = "" ∨ a.output = "" ∨ a.model = "") :
    ((∃ msg, (L.log a now sendOk).result = .error (.valueError msg))
      ∧ (L.log a now sendOk).logger = L
      ∧ (L.log a now sendOk).requests = []) := by
  by_cases hp : a.prompt = ""
  · exact ⟨⟨"[RegulateAI] log() requires a non-empty string prompt.",
      by simp [ComplianceLogger.log, hp]⟩, by simp [ComplianceLogger.log, hp],
      by simp [ComplianceLogger.log, hp]⟩
  · by_cases ho : a.output = ""
    · exact ⟨⟨"[RegulateAI] log() requires a non-empty string output.",
        by simp [ComplianceLogger.log, hp, ho]⟩, by simp [ComplianceLogger.log, hp, ho],
        by simp [ComplianceLogger.log, hp, ho]⟩
    · have hm : a.model = "" := by tauto
      exact ⟨⟨"[RegulateAI] log() requires a non-empty string model.",
        by simp [ComplianceLogger.log, hp, ho, hm]⟩,
        by simp [ComplianceLogger.log, hp, ho, hm], by simp [ComplianceLogger.log, hp, ho, hm]⟩

/-- An `AILogger.log` call with some empty required field fails the
validation before issuing any request. -/
theorem aiLog_invalid (A : AILogger) (a : AILogArgs) (resp : Except SdkError LogEntry)
    (h : a.prompt = "" ∨ a.output = "" ∨ a.model = "") :
    ((∃ msg, (A.log a resp).result = .error (.valueError msg))
      ∧ (A.log a resp).requests = []) := by
  by_cases hp : a.prompt = ""
  · exact ⟨⟨"[AILogger] log() requires a non-empty string prompt.",
      by simp [AILogger.log, hp]⟩, by simp [AILogger.log, hp]⟩
  · by_cases ho : a.output = ""
    · exact ⟨⟨"[AILogger] log() requires a non-empty string output.",
        by simp [AILogger.log, hp, ho]⟩, by simp [AILogger.log, hp, ho]⟩
    · have hm : a.model = "" := by tauto
      exact ⟨⟨"[AILogger] log() requires a non-empty string model.",
        by simp [AILogger.log, hp, ho, hm]⟩, by simp [AILogger.log, hp, ho, hm]⟩

/-- C7: in both logger variants, `log()` with an empty required string
field (prompt, output or model) raises `ValueError` synchronously,
enqueues nothing (the buffered logger state is unchanged) and performs no
network call. -/
theorem log_empty_field_rejected (L : ComplianceLogger LogEntry) (a : LogArgs)
    (now : Int) (sendOk : Bool) (A : AILogger) (a2 : AILogArgs)
    (resp : Except SdkError LogEntry)
    (h1 : a.prompt = "" ∨ a.output = "" ∨ a.model = "")
    (h2 : a2.prompt = "" ∨ a2.output = "" ∨ a2.model = "") :
    ((∃ msg, (L.log a now sendOk).result = .error (.valueError msg))
      ∧ (L.log a now sendOk).logger = L
      ∧ (L.log a now sendOk).requests = []
      ∧ (∃ msg, (A.log a2 resp).result = .error (.valueError msg))
      ∧ (A.log a2 resp).requests = []) := by
  obtain ⟨e1, e2, e3⟩ := complianceLog_invalid L a now sendOk h1
  obtain ⟨f1, f2⟩ := aiLog_invalid A a2 resp h2
  exact ⟨e1, e2, e3, f1, f2⟩

/-- Witness for C7: empty prompt on both concrete loggers. -/
theorem log_empty_field_rejected_witness :
    ((∃ msg, (sampleEntryLogger.log emptyPromptArgs 3 true).result
        = .error (.valueError msg))
      ∧ (sampleEntryLogger.log emptyPromptArgs 3 true).logger = sampleEntryLogger
      ∧ (sampleEntryLogger.log emptyPromptArgs 3 true).requests = []
      ∧ (∃ msg, (sampleAILogger.log emptyPromptAIArgs (.ok [])).result
          = .error (.valueError msg))
      ∧ (sampleAILogger.log emptyPromptAIArgs (.ok [])).requests = []) :=
  log_empty_field_rejected sampleEntryLogger emptyPromptArgs 3 true
    sampleAILogger emptyPromptAIArgs (.ok []) (Or.inl rfl) (Or.inl rfl)

/-- After any `_flush`, the buffer is empty (it was swapped for an empty
sequence whether or not anything was sent). -/
theorem flushOp_buffer_empty {α : Type} (L : ComplianceLogger α) (now : Int) (sendOk : Bool) :
    (L.flushOp now sendOk).logger.buffer.buffer = [] := by
  by_cases h : L.buffer.buffer.isEmpty <;>
    simp [ComplianceLogger.flushOp, LogBuffer.flush, h]

/-- `_flush` never changes the configured capacity threshold. -/
theorem flushOp_buffer_size {α : Type} (L : ComplianceLogger α) (now : Int) (sendOk : Bool) :
    (L.flushOp now sendOk).logger.buffer.buffer_size = L.buffer.buffer_size := by
  by_cases h : L.buffer.buffer.isEmpty <;>
    simp [ComplianceLogger.flushOp, LogBuffer.flush, h]

/-- `_flush` on a non-empty buffer submits exactly one batch holding the
whole drained contents. -/
theorem flushOp_requests_nonempty {α : Type} (L : ComplianceLogger α) (now : Int)
    (sendOk : Bool) (h : L.buffer.buffer ≠ []) :
    (L.flushOp now sendOk).requests = [L.buffer.buffer] := by
  cases hb : L.buffer.buffer with
  | nil => exact absurd hb h
  | cons x xs => simp [ComplianceLogger.flushOp, LogBuffer.flush, hb]

/-- One valid `log()` call leaves the buffer at or below its capacity
threshold: if the appended entry reached the threshold the synchronous
flush drained the buffer, otherwise the post-append size is below it. -/
theorem log_step_size_le (L : ComplianceLogger LogEntry) (a : LogArgs) (now : Int)
    (sendOk : Bool) (hp : a.prompt ≠ "") (ho : a.output ≠ "") (hm : a.model ≠ "") :
    (L.log a now sendOk).logger.buffer.size
      ≤ (L.log a now sendOk).logger.buffer.buffer_size := by
  unfold ComplianceLogger.log
  rw [if_neg hp, if_neg ho, if_neg hm]
  by_cases hf :
      ComplianceLogger.shouldFlush { L with buffer := (L.buffer.add a.payload).1 } now = true
  · simp only [hf, if_true]
    simp [LogBuffer.size, flushOp_buffer_empty]
  · have h1 : ¬ (L.buffer.add a.payload).1.size ≥ (L.buffer.add a.payload).1.buffer_size := by
      intro hge
      exact hf (by simp [ComplianceLogger.shouldFlush, LogBuffer.size] at hge ⊢; omega)
    simp only [hf, if_false, Bool.false_eq_true, ite_false]
    simp [LogBuffer.size] at h1 ⊢
    omega

/-- C8: along any sequential history of valid `log()` calls (transport
succeeding or failing), the buffer length observed at the return of each
call never exceeds the configured capacity threshold. -/
theorem sequential_logs_never_exceed_capacity (L : ComplianceLogger LogEntry)
    (calls : List LogCall)
    (hv : ∀ c ∈ calls, c.args.prompt ≠ "" ∧ c.args.output ≠ "" ∧ c.args.model ≠ "") :
    ∀ L1 ∈ runLogs L calls, L1.buffer.size ≤ L1.buffer.buffer_size := by
  induction calls generalizing L with
  | nil =>
    intro L1 h
    simp [runLogs] at h
  | cons c cs ih =>
    intro L1 h
    obtain ⟨hp, ho, hm⟩ := hv c (List.mem_cons_self c cs)
    simp only [runLogs, List.mem_cons] at h
    rcases h with rfl | h
    · exact log_step_size_le L c.args c.now c.sendOk hp ho hm
    · exact ih _ (fun d hd => hv d (List.mem_cons_of_mem c hd)) L1 h

/-- Witness for C8: one valid call against the concrete capacity-3
logger. -/
theorem sequential_logs_never_exceed_capacity_witness :
    (sampleEntryLogger.log validArgs 1 true).logger.buffer.size
      ≤ (sampleEntryLogger.log validArgs 1 true).logger.buffer.buffer_size :=
  sequential_logs_never_exceed_capacity sampleEntryLogger
    [{ args := validArgs, now := 1, sendOk := true }]
    (by decide) _ (by simp [runLogs])

/-- C10: with a non-positive flush interval the constructor does not start
the background thread, and — because a current clock reading at or past
`_last_flush` then always satisfies the elapsed-time condition of
`_should_flush` — every valid `log()` call flushes synchronously before
returning: the buffer is left empty and the whole pending batch (ending
in the new entry) went out as one request. -/
theorem nonpositive_interval_immediate (key pid url : String) (tmo : Int) (silent : Bool)
    (C : Nat) (interval : Int) (t0 : Int)
    (L : ComplianceLogger LogEntry) (a : LogArgs) (now : Int) (sendOk : Bool)
    (hkey : key ≠ "") (hpid : pid ≠ "") (hint : interval ≤ 0)
    (hL : L.flush_interval ≤ 0) (hnow : L.last_flush ≤ now)
    (hp : a.prompt ≠ "") (ho : a.output ≠ "") (hm : a.model ≠ "") :
    ((ComplianceLogger.init LogEntry key pid url tmo silent C interval t0).map
        (fun L0 => L0.flush_thread_started) = .ok false
      ∧ (L.log a now sendOk).logger.buffer.buffer = []
      ∧ (L.log a now sendOk).requests = [L.buffer.buffer ++ [a.payload]]) := by
  have hsf :
      ComplianceLogger.shouldFlush { L with buffer := (L.buffer.add a.payload).1 } now = true := by
    have h2 : now - L.last_flush ≥ L.flush_interval := by omega
    simp [ComplianceLogger.shouldFlush, h2]
  refine ⟨?_, ?_, ?_⟩
  · simp [ComplianceLogger.init, hkey, hpid, Except.map]
    omega
  · unfold ComplianceLogger.log
    rw [if_neg hp, if_neg ho, if_neg hm]
    simp only [hsf, if_true]
    exact flushOp_buffer_empty _ now sendOk
  · unfold ComplianceLogger.log
    rw [if_neg hp, if_neg ho, if_neg hm]
    simp only [hsf, if_true]
    have hne : ((L.buffer.add a.payload).1).buffer ≠ [] := by
      simp [LogBuffer.add]
    simpa [LogBuffer.add] using
      flushOp_requests_nonempty { L with buffer := (L.buffer.add a.payload).1 } now sendOk hne

/-- Witness for C10 at a concrete interval-0 logger and one valid call. -/
theorem nonpositive_interval_immediate_witness :
    ((ComplianceLogger.init LogEntry "key" "proj" "https://example.test" 10 false 3 0 0).map
        (fun L0 => L0.flush_thread_started) = .ok false
      ∧ (immediateEntryLogger.log validArgs 1 true).logger.buffer.buffer = []
      ∧ (immediateEntryLogger.log validArgs 1 true).requests
          = [immediateEntryLogger.buffer.buffer ++ [validArgs.payload]]) :=
  nonpositive_interval_immediate "key" "proj" "https://example.test" 10 false 3 0 0
    immediateEntryLogger validArgs 1 true (by decide) (by decide) (by decide)
    (by decide) (by decide) (by decide) (by decide) (by decide)

end AILoggerSpec
